import Mathlib

/-!
Shallow embedding of the vscode-doiuse language server (src/server.ts) and
proofs about its validation pipeline.

The embedding models the server's own code faithfully; external collaborators
(the doiuse scanning engine, postcss, micromatch, path.relative,
Files.uriToFilePath, vscode-config-resolver's scan) are modelled as explicit
function-valued parameters collected in an `Env` record, mirroring the fact
that the server only consumes their results.  JavaScript numbers used for
source positions are modelled as `Int` so that the `- 1` translations behave
exactly as in the source.  Mutable module-level state (`needUpdateConfig`,
`browsersListCache`, `editorSettings`, `workspaceFolder`) is threaded
explicitly.
-/

/-- LSP position as produced by `makeDiagnostic` (0-based in intent).
`line`/`character` are JS numbers, modelled as `Int`. -/
structure LspPosition where
  line : Int
  character : Int
deriving DecidableEq, Repr

/-- LSP range; the source object's `end` field is called `stop` here because
`end` is a Lean keyword. -/
structure LspRange where
  start : LspPosition
  stop : LspPosition
deriving DecidableEq, Repr

/-- One endpoint of the engine-reported source position (1-based `line` and
`column`, from `problem.usage.source.start` / `.end`). -/
structure SourcePos where
  line : Int
  column : Int
deriving DecidableEq, Repr

/-- The engine-reported source range of a finding (`problem.usage.source`);
the `end` field is called `stop` here because `end` is a Lean keyword. -/
structure SourceRange where
  start : SourcePos
  stop : SourcePos
deriving DecidableEq, Repr

/-- A raw feature-usage finding as delivered by the doiuse engine to the
`onFeatureUsage` callback.  The fields read by `makeDiagnostic` are
`feature`, `message` and `usage.source` (here `source`).  The engine's
feature-support flags are carried too: `missing` models the
`featureData.missing` flag and `limited` models the `featureData.partial`
flag (the name `limited` is used because the original flag name is a Lean
keyword).  The server's code never reads either flag. -/
structure Problem where
  feature : String
  message : String
  source : SourceRange
  missing : Bool
  limited : Bool
deriving DecidableEq, Repr

/-- LSP diagnostic severity constants (Error = 1, Warning = 2,
Information = 3, Hint = 4). -/
inductive DiagnosticSeverity where
  | Error
  | Warning
  | Information
  | Hint
deriving DecidableEq, Repr

/-- Numeric value of an LSP severity, as used by the protocol. -/
def DiagnosticSeverity.toNat : DiagnosticSeverity → Nat
  | .Error => 1
  | .Warning => 2
  | .Information => 3
  | .Hint => 4

/-- The diagnostic record built by `makeDiagnostic`.  `severity` is an
`Option` because the JS lookup `severityLevel[level]` yields `undefined`
for an unrecognized `messageLevel` string. -/
structure Diagnostic where
  severity : Option DiagnosticSeverity
  message : String
  range : LspRange
  code : String
  source : String
deriving DecidableEq, Repr

/-- The `doiuse` configuration section installed by
`connection.onDidChangeConfiguration` (`params.settings.doiuse`). -/
structure EditorSettings where
  messageLevel : String
  browsers : Option (List String)
  ignore : List String
  ignoreFiles : List String
  run : String
deriving DecidableEq, Repr

/-- The `severityLevel` lookup table of `makeDiagnostic`: a JS object keyed
by the `messageLevel` string; any other key reads as `undefined`. -/
def severityLevel (level : String) : Option DiagnosticSeverity :=
  if level = "Error" then some .Error
  else if level = "Information" then some .Information
  else if level = "Warning" then some .Warning
  else none

/-- Matches a literal character at the head of the character list, returning
the remainder on success. -/
def matchChar (c : Char) : List Char → Option (List Char)
  | d :: rest => if d = c then some rest else none
  | [] => none

/-- Matches a literal string prefix, returning the remainder on success. -/
def matchStr : List Char → List Char → Option (List Char)
  | [], l => some l
  | _ :: _, [] => none
  | c :: cs, d :: rest => if d = c then matchStr cs rest else none

/-- Consumes a maximal (possibly empty) run of decimal digits: the regex
piece `\d*`. -/
def dropDigits : List Char → List Char
  | [] => []
  | c :: rest => if c.isDigit then dropDigits rest else c :: rest

/-- Consumes at least one decimal digit then a maximal run: the regex piece
`\d+`. -/
def matchDigits1 : List Char → Option (List Char)
  | [] => none
  | c :: rest => if c.isDigit then some (dropDigits rest) else none

/-- Character class of the JS regex `\s` (the whitespace characters relevant
here). -/
def isJsSpace (c : Char) : Bool :=
  c == ' ' || c == '\t' || c == '\n' || c == '\r' ||
  c.toNat == 0x0b || c.toNat == 0x0c ||
  c.toNat == 0xa0 || c.toNat == 0x2028 || c.toNat == 0x2029 ||
  c.toNat == 0xfeff

/-- Matches a single `\s` character. -/
def matchSpace : List Char → Option (List Char)
  | c :: rest => if isJsSpace c then some rest else none
  | [] => none

/-- Matches the regex `<input css \d+>:\d*:\d*:\s` at the head of the list,
returning the remainder after the match. -/
def matchInputPrefix (l : List Char) : Option (List Char) :=
  (matchStr "<input css ".toList l).bind fun l1 =>
  (matchDigits1 l1).bind fun l2 =>
  (matchChar '>' l2).bind fun l3 =>
  (matchChar ':' l3).bind fun l4 =>
  (matchChar ':' (dropDigits l4)).bind fun l5 =>
  (matchChar ':' (dropDigits l5)).bind fun l6 =>
  matchSpace l6

/-- Removes the first (leftmost) match of the pattern from the character
list, leaving the rest unchanged: JS `String.replace` with a non-global
regex and an empty replacement. -/
def removeFirstMatch : List Char → List Char
  | [] => []
  | c :: rest =>
    match matchInputPrefix (c :: rest) with
    | some rest2 => rest2
    | none => c :: removeFirstMatch rest

/-- The message cleanup in `makeDiagnostic`:
`problem.message.replace(/<input css \d+>:\d*:\d*:\s/, '')`. -/
def stripEnginePrefix (message : String) : String :=
  String.mk (removeFirstMatch message.toList)

/-- Embedding of `makeDiagnostic` (src/server.ts lines 53-80).  The global
`editorSettings` is passed explicitly. -/
def makeDiagnostic (editorSettings : EditorSettings) (problem : Problem) :
    Diagnostic :=
  let source := problem.source
  let message := stripEnginePrefix problem.message
  let level := editorSettings.messageLevel
  { severity := severityLevel level
    message := message
    range :=
      { start :=
          { line := source.start.line - 1
            character := source.start.column - 1 }
        stop :=
          { line := source.stop.line - 1
            character := source.stop.column } }
    code := problem.feature
    source := "doiuse" }

/-- Consumes the regex tail `.*(?:\n|\r\n)` after a `#`: a maximal run of
characters that `.` can match (everything except LF, CR, U+2028, U+2029)
followed by either `\n` or `\r\n`.  Returns the remainder after the line
break on success; `none` when the run reaches the end of input, a lone
`\r`, or a Unicode line separator, in which case the regex does not match
at this `#`. -/
def afterHash : List Char → Option (List Char)
  | [] => none
  | c :: rest =>
    if c = '\n' then some rest
    else if c = '\r' then
      match rest with
      | d :: rest2 => if d = '\n' then some rest2 else none
      | [] => none
    else if c.toNat == 0x2028 || c.toNat == 0x2029 then none
    else afterHash rest

theorem afterHash_length : ∀ (l : List Char) (r : List Char),
    afterHash l = some r → r.length < l.length := by
  intro l
  induction l with
  | nil => intro r h; simp [afterHash] at h
  | cons c rest ih =>
    intro r h
    simp only [afterHash] at h
    split_ifs at h with h1 h2 h3
    · cases h; simp
    · cases rest with
      | nil => simp at h
      | cons d rest2 =>
        by_cases hd : d = '\n'
        · simp only [hd, if_pos rfl] at h
          cases h
          simp only [List.length_cons]
          omega
        · simp only [if_neg hd] at h
          exact Option.noConfusion h
    · have := ih r h
      simp only [List.length_cons]
      omega

/-- The global-replace `data.replace(/#.*(?:\n|\r\n)/g, '')` of
`browsersListParser`: scans left to right; at each `#` where the pattern
matches, the `#`, the rest of that line and the line break are deleted and
scanning resumes after the break (so the text before the `#` is joined to
the following line); a `#` where the pattern fails (no following line
break) is kept. -/
def stripComments : List Char → List Char
  | [] => []
  | c :: rest =>
    if c = '#' then
      match h : afterHash rest with
      | some rest2 => stripComments rest2
      | none => c :: stripComments rest
    else c :: stripComments rest
termination_by l => l.length
decreasing_by
  · have := afterHash_length rest rest2 h
    simp only [List.length_cons]
    omega
  · simp only [List.length_cons]; omega
  · simp only [List.length_cons]; omega

/-- The split `.split(/\r?\n/)`: cuts the character list at every `\n` or
`\r\n`; a lone `\r` is an ordinary character.  `acc` holds the current
line, reversed. -/
def splitLinesAux : List Char → List Char → List (List Char)
  | acc, [] => [acc.reverse]
  | acc, '\r' :: '\n' :: rest => acc.reverse :: splitLinesAux [] rest
  | acc, '\n' :: rest => acc.reverse :: splitLinesAux [] rest
  | acc, c :: rest => splitLinesAux (c :: acc) rest

/-- Splits a character list on `\r?\n` line breaks. -/
def splitLines (l : List Char) : List (List Char) :=
  splitLinesAux [] l

/-- JS `String.trim()`: removes leading and trailing whitespace. -/
def jsTrim (l : List Char) : List Char :=
  ((l.dropWhile isJsSpace).reverse.dropWhile isJsSpace).reverse

/-- Embedding of `browsersListParser` (src/server.ts lines 108-119): strip
`#`-to-line-break segments globally, split on `\r?\n`, then push the
trimmed form of every line that is non-empty *before* trimming. -/
def browsersListParser (data : String) : List String :=
  let lines := splitLines (stripComments data.toList)
  lines.foldl
    (fun browsers line =>
      if line ≠ [] then browsers ++ [String.mk (jsTrim line)] else browsers)
    []

/-- A JS `Error` as observed by the server: message and stack. -/
structure JsError where
  message : String
  stack : String
deriving DecidableEq, Repr

/-- The module-level mutable configuration cache: `needUpdateConfig` and
`browsersListCache` (src/server.ts lines 44-45). -/
structure CacheState where
  needUpdateConfig : Bool
  browsersListCache : List String
deriving DecidableEq, Repr

/-- An open text document snapshot as consumed by the pipeline. -/
structure Document where
  uri : String
  languageId : String
  content : String
deriving DecidableEq, Repr

/-- External collaborators, modelled as function-valued parameters:
`uriToFilePath` is `Files.uriToFilePath`; `relative` is `path.relative`;
`micromatch` is `micromatch(paths, patterns)` returning the matching
paths; `scan` is `configResolver.scan(documentFsPath, options)` (the
options — package property `browserslist`, config file `browserslist`,
the `editorSettings.browsers` override and the bare-list file format
handled by `browsersListParser` — are consumed inside the external
resolver, so only the resulting config value or rejection is modelled);
`engine` is `postcss(linter(options)).process(content, ...)`, which
delivers each finding to `onFeatureUsage` in order on success or rejects
with a parse failure. -/
structure Env where
  uriToFilePath : String → String
  relative : String → String → String
  micromatch : List String → List String → List String
  scan : String → Except JsError (List String)
  engine : List String → List String → String → Except String (List Problem)

/-- Embedding of `getBrowsersList` (src/server.ts lines 121-146): when the
cache is fresh (`needUpdateConfig` is false) the cached list is returned
without scanning; otherwise the external resolver is scanned, the cache is
replaced and marked fresh.  A scan rejection propagates (the returned
promise rejects). -/
def getBrowsersList (env : Env) (documentFsPath : String) (st : CacheState) :
    Except JsError (CacheState × List String) :=
  if !st.needUpdateConfig then .ok (st, st.browsersListCache)
  else
    match env.scan documentFsPath with
    | .ok json => .ok ({ needUpdateConfig := false, browsersListCache := json }, json)
    | .error e => .error e

/-- The observable outcome of one document's validation pipeline. -/
inductive DocOutcome where
  /-- Early return from the ignore check: the (empty) diagnostics array is
  returned to the caller and nothing is published. -/
  | ignored (diagnostics : List Diagnostic)
  /-- `connection.sendDiagnostics(\x7b diagnostics, uri \x7d)` was called. -/
  | published (uri : String) (diagnostics : List Diagnostic)
  /-- The postcss promise rejected and the inner `.catch` logged the error
  to the console; nothing is published. -/
  | engineErrorLogged (message : String)
  /-- The promise returned by `validateDocument` rejected (the config scan
  failed); the caller's `.catch` sees this error. -/
  | rejected (err : JsError)
deriving DecidableEq, Repr

/-- The `fsPath` value at the time `getBrowsersList` is called: it is
relativized to the workspace folder only when the ignore-files check runs
(i.e. `ignoreFiles` is non-empty) and a workspace folder exists. -/
def effectiveFsPath (env : Env) (workspaceFolder : Option String)
    (editorSettings : EditorSettings) (document : Document) : String :=
  let fsPath := env.uriToFilePath document.uri
  if editorSettings.ignoreFiles.length ≠ 0 then
    match workspaceFolder with
    | some w => env.relative w fsPath
    | none => fsPath
  else fsPath

/-- The ignore check of `validateDocument`: `ignoreFiles` is non-empty and
`micromatch([fsPath], ignoreFiles)` returned at least one match. -/
def isIgnored (env : Env) (workspaceFolder : Option String)
    (editorSettings : EditorSettings) (document : Document) : Bool :=
  editorSettings.ignoreFiles.length != 0 &&
  (env.micromatch [effectiveFsPath env workspaceFolder editorSettings document]
      editorSettings.ignoreFiles).length != 0

/-- Embedding of `validateDocument` (src/server.ts lines 148-185).  The
globals `workspaceFolder`, `editorSettings` and the cache state are passed
explicitly.  On an ignored path the function returns the still-empty
`diagnostics` array without publishing.  Otherwise the browsers list is
resolved (possibly from cache), the engine runs, each finding is pushed
through `makeDiagnostic`, and the collected array is published for the
document's uri; an engine/parse failure is caught and logged without
publishing. -/
def validateDocument (env : Env) (workspaceFolder : Option String)
    (editorSettings : EditorSettings) (st : CacheState) (document : Document) :
    CacheState × DocOutcome :=
  let fsPath := effectiveFsPath env workspaceFolder editorSettings document
  if isIgnored env workspaceFolder editorSettings document then
    (st, .ignored [])
  else
    match getBrowsersList env fsPath st with
    | .error err => (st, .rejected err)
    | .ok (st2, browsersList) =>
      match env.engine browsersList editorSettings.ignore document.content with
      | .ok problems =>
        (st2, .published document.uri (problems.map (makeDiagnostic editorSettings)))
      | .error msg => (st2, .engineErrorLogged msg)

/-- Embedding of `getErrorMessage` (src/server.ts lines 82-91). -/
def getErrorMessage (env : Env) (err : JsError) (document : Document) : String :=
  let fsPath := env.uriToFilePath document.uri
  "vscode-doiuse: \x27" ++ err.message ++ "\x27 while validating: " ++ fsPath ++
    " stacktrace: " ++ err.stack

/-- Model of `ErrorMessageTracker.sendErrors` from vscode-languageserver:
after the whole batch has settled the tracked messages are reported (one
batch-level report, deduplicated); nothing at all is sent when no message
was tracked. -/
def trackerSendErrors (messages : List String) : Option (List String) :=
  if messages.isEmpty then none else some messages.eraseDups

/-- A JS runtime exception, such as a `TypeError` from reading a property
or calling a method of a value that lacks it. -/
inductive JsRuntimeError where
  | typeError (message : String)
deriving DecidableEq, Repr

/-- The observable result of one `validate` batch. -/
inductive BatchResult where
  /-- The `documents.map` phase completed, `Promise.all` settled and
  `tracker.sendErrors` ran: the per-document outcomes in order, and the
  aggregated report (`none` when no message was tracked). -/
  | completed (outcomes : List DocOutcome) (notification : Option (List String))
  /-- The `documents.map` phase threw synchronously.  The pipelines started
  before the throw (including the early-returning ignored document itself)
  still settle with the listed outcomes, but the remaining documents are
  never processed, `Promise.all` is never reached, tracked messages are
  never sent, and the exception propagates uncaught out of `validate` into
  the event handler that called it. -/
  | crashed (started : List DocOutcome) (thrown : JsRuntimeError)
deriving DecidableEq, Repr

/-- True when the pipeline's config lookup resolved, i.e. the `.then`
inside `getBrowsersList` ran — which, on a fresh scan, is when the cache
write lands. -/
def pipelineWrote : DocOutcome → Bool
  | .published _ _ => true
  | .engineErrorLogged _ => true
  | .ignored _ => false
  | .rejected _ => false

/-- Accumulator of the `documents.map` phase of `validate`: the outcomes of
the started pipelines, the messages their `.catch` handlers add to the
tracker, the cache writes performed as fresh scans resolve (in batch
order), and the synchronous exception that aborted the map, if any. -/
structure MapPhase where
  outcomes : List DocOutcome
  tracker : List String
  writes : List CacheState
  thrown : Option JsRuntimeError
deriving DecidableEq, Repr

/-- The `documents.map` phase of `validate` (src/server.ts lines 190-198):
for each document in order, `validateDocument(document)` is called and
`.catch` is attached to its result.  Every pipeline's synchronous prefix —
the ignore check and the `needUpdateConfig` test inside `getBrowsersList` —
reads the batch-start cache state `st0`, because cache writes only land
when a scan promise resolves, after the whole map has run.  On an ignored
document `validateDocument` returns the plain (empty) diagnostics array
instead of a promise, so the `.catch` property access on it throws a
synchronous `TypeError` that aborts the map; the remaining documents are
never processed.  Scan resolution order is modelled as batch order for the
cache writes. -/
def validateMap (env : Env) (workspaceFolder : Option String)
    (editorSettings : EditorSettings) (st0 : CacheState) :
    List Document → MapPhase
  | [] => { outcomes := [], tracker := [], writes := [], thrown := none }
  | document :: rest =>
    let r := validateDocument env workspaceFolder editorSettings st0 document
    match r.2 with
    | .ignored diags =>
      { outcomes := [.ignored diags]
        tracker := []
        writes := []
        thrown :=
          some (.typeError "validateDocument(...).catch is not a function") }
    | out =>
      let m := validateMap env workspaceFolder editorSettings st0 rest
      { outcomes := out :: m.outcomes
        tracker :=
          (match out with
            | .rejected err => [getErrorMessage env err document]
            | _ => []) ++ m.tracker
        writes :=
          (if st0.needUpdateConfig && pipelineWrote out then [r.1] else []) ++
            m.writes
        thrown := m.thrown }

/-- Embedding of `validate` (src/server.ts lines 187-202).  When the map
phase completes, `Promise.all` waits for every caught pipeline and the
tracker report is sent after the whole batch settles; when the map phase
throws (any batch containing an ignored document), the `TypeError`
propagates uncaught, the remaining pipelines never start and no report is
ever sent.  The returned cache state applies the started pipelines'
fresh-scan writes in order — they land even when the map has thrown,
because the already-started promises still resolve. -/
def validate (env : Env) (workspaceFolder : Option String)
    (editorSettings : EditorSettings) (st : CacheState)
    (documents : List Document) : CacheState × BatchResult :=
  let m := validateMap env workspaceFolder editorSettings st documents
  let stFinal := m.writes.getLast?.getD st
  match m.thrown with
  | some e => (stFinal, .crashed m.outcomes e)
  | none => (stFinal, .completed m.outcomes (trackerSendErrors m.tracker))

/-- Embedding of the `allDocuments.onDidChangeContent` handler
(src/server.ts lines 259-263): it reads `editorSettings.run` with no guard;
when the global `editorSettings` is still `undefined` (no configuration
notification yet) the property read throws a `TypeError`.  On success the
`Bool` says whether `validate([event.document])` runs. -/
def onDidChangeContent (editorSettings : Option EditorSettings)
    (event : Document) : Except JsRuntimeError Bool :=
  match editorSettings with
  | none => .error (.typeError "Cannot read property run of undefined")
  | some s => .ok (s.run = "onType")

/-- Embedding of the `allDocuments.onDidSave` handler (src/server.ts lines
265-269), with the same unguarded `editorSettings.run` read. -/
def onDidSave (editorSettings : Option EditorSettings)
    (event : Document) : Except JsRuntimeError Bool :=
  match editorSettings with
  | none => .error (.typeError "Cannot read property run of undefined")
  | some s => .ok (s.run = "onSave")

/-- Embedding of `connection.onDidChangeConfiguration` (src/server.ts lines
242-246): the handler body is exactly `editorSettings =
params.settings.doiuse; validate(allDocuments.all())`.  It returns the new
settings global, the (untouched) cache state, and `true` recording that
every open document is revalidated. -/
def onDidChangeConfiguration (params : EditorSettings)
    (editorSettings : Option EditorSettings) (st : CacheState) :
    Option EditorSettings × CacheState × Bool :=
  (some params, st, true)

/-- Embedding of `connection.onDidChangeWatchedFiles` (src/server.ts lines
248-252): sets `needUpdateConfig = true` and revalidates every open
document. -/
def onDidChangeWatchedFiles (st : CacheState) : CacheState × Bool :=
  ({ st with needUpdateConfig := true }, true)

/-- Embedding of the `allDocuments.onDidClose` handler (src/server.ts lines
271-276): publishes an empty diagnostic list for the closed document's
uri. -/
def onDidClose (event : Document) : String × List Diagnostic :=
  (event.uri, [])

/-- A JS error value observed by the `onInitialize` catch: optional `code`
property and message. -/
structure InitError where
  code : Option String
  message : String
deriving DecidableEq, Repr

/-- The observable result of `connection.onInitialize`. -/
inductive InitResult where
  /-- The capabilities object was returned (the linter module was loaded). -/
  | success
  /-- `null` was returned: initialization completes without error. -/
  | nullResult
  /-- `Promise.reject(new ResponseError(99, message, { retry: true }))`. -/
  | retryError (message : String)
deriving DecidableEq, Repr

/-- The `doiuseNotFound` install-hint message (src/server.ts lines 47-51):
two strings joined with an empty separator. -/
def doiuseNotFound : String :=
  "Failed to load doiuse library." ++
    "Please install doiuse in your workspace folder using \x27npm install doiuse\x27 or \x27npm install -g doiuse\x27 and then press Retry."

/-- The guard `params.initializationOptions &&
Object.keys(params.initializationOptions).length !== 0`: `none` models an
absent (undefined, hence falsy) `initializationOptions` object. -/
def objectKeysNonEmpty : Option (List String) → Bool
  | some keys => keys.length != 0
  | none => false

/-- The `.then` stage of `onInitialize` (src/server.ts lines 211-226): an
`undefined` module path is turned into a thrown `ENOENT`-coded error;
otherwise the linter is loaded and the capabilities object returned. -/
def initThenStage (modulePath : Option String) : Except InitError InitResult :=
  match modulePath with
  | none => .error { code := some "ENOENT", message := "Module not found." }
  | some _ => .ok .success

/-- The `.catch` stage of `onInitialize` (src/server.ts lines 227-239): a
non-`ENOENT` error is logged and `null` returned; an `ENOENT` error yields
the retryable `doiuseNotFound` response error only when non-empty
initialization options were supplied, and `null` otherwise. -/
def initCatchStage (err : InitError)
    (initializationOptions : Option (List String)) : InitResult :=
  if err.code ≠ some "ENOENT" then .nullResult
  else if objectKeysNonEmpty initializationOptions then .retryError doiuseNotFound
  else .nullResult

/-- Embedding of `connection.onInitialize` (src/server.ts lines 204-240).
`resolveOutcome` models the promise returned by
`moduleResolver.resolveOne(\x27doiuse\x27, workspaceFolder)`: fulfilled
with an optional module path, or rejected with a JS error. -/
def onInitialize (resolveOutcome : Except InitError (Option String))
    (initializationOptions : Option (List String)) : InitResult :=
  match resolveOutcome.bind initThenStage with
  | .ok r => r
  | .error err => initCatchStage err initializationOptions

/-- True when the scanning-engine module cannot be resolved from the
workspace: `resolveOne` fulfilled with `undefined`, or rejected with an
`ENOENT`-coded error. -/
def engineMissing : Except InitError (Option String) → Bool
  | .ok none => true
  | .ok (some _) => false
  | .error err => err.code == some "ENOENT"

/-- Modelled from the spec: the severity classification the specification
ascribes to the Diagnostic Builder (missing flag yields Error, otherwise
the partial-support flag yields Warning, otherwise Information).  This
definition follows the spec's words and exists only to be compared with
the behaviour of `makeDiagnostic`, which the source derives from
`editorSettings.messageLevel` instead. -/
def severityFromFlagsSpec (problem : Problem) : DiagnosticSeverity :=
  if problem.missing then .Error
  else if problem.limited then .Warning
  else .Information

/-- Modelled from the spec: the bare-list parser as the specification
describes it — strip full-line comments (lines starting with a pound
character), split on line breaks, trim each line, and drop empty lines.
This definition follows the spec's words and exists only to be compared
with `browsersListParser`. -/
def browsersListParserSpec (data : String) : List String :=
  ((((splitLines data.toList).filter
      (fun line => line.head? ≠ some '#')).map jsTrim).filter
    (fun line => line ≠ [])).map String.mk

/-! Concrete example inputs used by closed counterexample and witness
theorems. -/

/-- A sample engine-reported source range (1-based). -/
def sampleSource : SourceRange :=
  { start := { line := 3, column := 5 }, stop := { line := 3, column := 12 } }

/-- A finding whose `missing` flag is set. -/
def problemMissing : Problem :=
  { feature := "border-radius"
    message := "<input css 1>:3:5: border-radius not supported by: IE (8)"
    source := sampleSource
    missing := true
    limited := false }

/-- A finding with only the partial-support flag set. -/
def problemLimited : Problem :=
  { feature := "css-gradients"
    message := "<input css 1>:3:5: css-gradients only partially supported by: IE (9)"
    source := sampleSource
    missing := false
    limited := true }

/-- A finding with neither support flag set. -/
def problemClean : Problem :=
  { feature := "outline"
    message := "outline is fine"
    source := sampleSource
    missing := false
    limited := false }

/-- Settings with `messageLevel` set to `Information`. -/
def infoSettings : EditorSettings :=
  { messageLevel := "Information", browsers := none, ignore := [],
    ignoreFiles := [], run := "onType" }

/-- Settings with `messageLevel` set to `Error`. -/
def errorSettings : EditorSettings :=
  { messageLevel := "Error", browsers := none, ignore := [],
    ignoreFiles := [], run := "onType" }

/-- Settings with one configured ignore glob. -/
def ignoreSettings : EditorSettings :=
  { messageLevel := "Warning", browsers := none, ignore := [],
    ignoreFiles := ["**/*.min.css"], run := "onType" }

/-- A sample open document. -/
def sampleDoc : Document :=
  { uri := "file:///ws/dist/app.min.css", languageId := "css", content := "a" }

/-- A concrete environment: identity path mapping, no glob ever matches,
the config scan resolves to `firefox 99`, and the engine reports the
single partial-support finding. -/
def plainEnv : Env :=
  { uriToFilePath := fun uri => uri
    relative := fun _ pa => pa
    micromatch := fun _ _ => []
    scan := fun _ => .ok ["firefox 99"]
    engine := fun _ _ _ => .ok [problemLimited] }

/-- Like `plainEnv` but every path matches every glob set. -/
def matchAllEnv : Env :=
  { plainEnv with micromatch := fun paths _ => paths }

/-- Like `plainEnv` but the engine reports two findings with different
support flags. -/
def twoFindingsEnv : Env :=
  { plainEnv with engine := fun _ _ _ => .ok [problemMissing, problemClean] }

/-- A warm cache: `needUpdateConfig` is false and `chrome 30` is cached. -/
def warmCache : CacheState :=
  { needUpdateConfig := false, browsersListCache := ["chrome 30"] }

/-- A second open document, not matching the ignore glob. -/
def docA : Document :=
  { uri := "file:///ws/a.css", languageId := "css", content := "a" }

/-- A third open document, not matching the ignore glob. -/
def docB : Document :=
  { uri := "file:///ws/b.css", languageId := "css", content := "b" }

/-- Like `plainEnv` but the glob matcher matches exactly the minified
stylesheet's path. -/
def ignoreMinEnv : Env :=
  { plainEnv with
      micromatch := fun paths _ =>
        paths.filter (fun pa => pa = "file:///ws/dist/app.min.css") }

/-! Theorems settling the claims. -/

/-- C1 counterexample: a finding with the `missing` flag set, built under
`messageLevel = "Information"`, yields severity Information, not the Error
that the claim's flag-based classification demands. -/
theorem C1_counterexample :
    (makeDiagnostic infoSettings problemMissing).severity =
        some DiagnosticSeverity.Information ∧
    severityFromFlagsSpec problemMissing = DiagnosticSeverity.Error ∧
    some DiagnosticSeverity.Information ≠ some DiagnosticSeverity.Error := by
  refine ⟨by decide, by decide, by decide⟩

/-- C1 (amended): the severity of every built diagnostic is exactly the
severity table's entry for the configured `messageLevel` string,
independent of the finding's feature flags and message content. -/
theorem C1_severity_from_messageLevel :
    ∀ (s : EditorSettings) (p : Problem),
      (makeDiagnostic s p).severity = severityLevel s.messageLevel :=
  fun _ _ => rfl

/-- C2 counterexample: with `messageLevel = "Error"`, a finding whose flags
the spec classifies as Warning is built and IS included in the published
set (the claim says it is computed but not included). -/
theorem C2_counterexample :
    validateDocument plainEnv none errorSettings warmCache sampleDoc =
      (warmCache,
        .published "file:///ws/dist/app.min.css"
          [makeDiagnostic errorSettings problemLimited]) ∧
    severityFromFlagsSpec problemLimited = DiagnosticSeverity.Warning ∧
    [makeDiagnostic errorSettings problemLimited] ≠ ([] : List Diagnostic) := by
  refine ⟨rfl, by decide, by simp⟩

/-- C2 (amended): no severity-based filtering occurs anywhere in the
pipeline — whenever the pipeline publishes, the published set is exactly
the diagnostics built from all of the engine's findings, whatever the
configured `messageLevel` is. -/
theorem C2_no_severity_filtering :
    ∀ (env : Env) (wf : Option String) (s : EditorSettings)
      (st st2 : CacheState) (doc : Document) (bl : List String)
      (problems : List Problem),
      isIgnored env wf s doc = false →
      getBrowsersList env (effectiveFsPath env wf s doc) st = .ok (st2, bl) →
      env.engine bl s.ignore doc.content = .ok problems →
      validateDocument env wf s st doc =
        (st2, .published doc.uri (problems.map (makeDiagnostic s))) := by
  intro env wf s st st2 doc bl problems hig hb he
  simp [validateDocument, hig, hb, he]

/-- C2 witness: the amended theorem applied at a concrete input. -/
theorem C2_witness :
    validateDocument plainEnv none errorSettings warmCache sampleDoc =
      (warmCache,
        .published sampleDoc.uri
          ([problemLimited].map (makeDiagnostic errorSettings))) :=
  C2_no_severity_filtering plainEnv none errorSettings warmCache warmCache
    sampleDoc ["chrome 30"] [problemLimited] rfl rfl rfl

/-- C3 counterexample: validating an ignored document does not publish an
empty diagnostic list — the pipeline returns early with the `ignored`
outcome, which is not a publication for the document's uri. -/
theorem C3_counterexample :
    (validateDocument matchAllEnv (some "/ws") ignoreSettings warmCache
        sampleDoc).2 = DocOutcome.ignored [] ∧
    DocOutcome.ignored [] ≠
      DocOutcome.published "file:///ws/dist/app.min.css" [] := by
  refine ⟨rfl, by decide⟩

/-- C3 (amended): for every document matching a configured ignore glob, the
pipeline returns the empty diagnostics array to its caller without
publishing anything and without touching the cache state; previously
published diagnostics for the file are therefore left in place (they are
cleared only by the document-close handler). -/
theorem C3_ignored_returns_without_publishing :
    ∀ (env : Env) (wf : Option String) (s : EditorSettings) (st : CacheState)
      (doc : Document),
      isIgnored env wf s doc = true →
      validateDocument env wf s st doc = (st, .ignored []) := by
  intro env wf s st doc h
  simp [validateDocument, h]

/-- C3 witness: the amended theorem applied at a concrete ignored document
(whose engine would report a finding if it ran). -/
theorem C3_witness :
    validateDocument matchAllEnv (some "/ws") ignoreSettings warmCache
      sampleDoc = (warmCache, .ignored []) :=
  C3_ignored_returns_without_publishing matchAllEnv (some "/ws")
    ignoreSettings warmCache sampleDoc rfl

/-- C4 counterexample: after a configuration-change event on a warm cache,
the cache state is unchanged, so the next browser-target resolution
returns the pre-change cached value `chrome 30` even though a fresh scan
would return `firefox 99`. -/
theorem C4_counterexample :
    onDidChangeConfiguration errorSettings (some infoSettings) warmCache =
      (some errorSettings, warmCache, true) ∧
    getBrowsersList plainEnv "dist/app.min.css" warmCache =
      .ok (warmCache, ["chrome 30"]) ∧
    plainEnv.scan "dist/app.min.css" = .ok ["firefox 99"] ∧
    (["chrome 30"] : List String) ≠ ["firefox 99"] := by
  refine ⟨rfl, rfl, rfl, by decide⟩

/-- C4 (amended): a configuration-change event replaces the live settings
and revalidates every open document, but does not invalidate the cached
browser targets; only a watched-files-change event marks the cache for
refresh. -/
theorem C4_config_change_preserves_cache :
    ∀ (params : EditorSettings) (old : Option EditorSettings)
      (st : CacheState),
      onDidChangeConfiguration params old st = (some params, st, true) ∧
      onDidChangeWatchedFiles st =
        ({ st with needUpdateConfig := true }, true) :=
  fun _ _ _ => ⟨rfl, rfl⟩

/-- C5: the built diagnostic's range decrements the 1-based start line,
start column and end line, but not the end column, exactly as the claim
states. -/
theorem C5_range_translation :
    ∀ (s : EditorSettings) (p : Problem),
      (makeDiagnostic s p).range =
        { start :=
            { line := p.source.start.line - 1
              character := p.source.start.column - 1 }
          stop :=
            { line := p.source.stop.line - 1
              character := p.source.stop.column } } :=
  fun _ _ => rfl

/-- C6 counterexample: on `"a #c\nb\n"` the code removes the mid-line
comment together with its line break, merging the two lines into `"a b"`,
while the claimed full-line-comment semantics keeps `"a #c"` and `"b"`
as separate entries. -/
theorem C6_counterexample :
    browsersListParser "a #c\nb\n" = ["a b"] ∧
    browsersListParserSpec "a #c\nb\n" = ["a #c", "b"] ∧
    (["a b"] : List String) ≠ ["a #c", "b"] := by
  refine ⟨?_, ?_, by decide⟩
  · simp [browsersListParser, splitLines, stripComments, afterHash,
      splitLinesAux, jsTrim, isJsSpace]
  · simp [browsersListParserSpec, splitLines, splitLinesAux, jsTrim,
      isJsSpace]

theorem browsersListParser_foldl_eq :
    ∀ (lines : List (List Char)) (acc : List String),
      lines.foldl
        (fun browsers line =>
          if line ≠ [] then browsers ++ [String.mk (jsTrim line)]
          else browsers) acc =
      acc ++ (lines.filter (fun line => line ≠ [])).map
        (fun line => String.mk (jsTrim line)) := by
  intro lines
  induction lines with
  | nil => intro acc; simp
  | cons l rest ih =>
    intro acc
    rw [List.foldl_cons, ih]
    cases l with
    | nil => simp
    | cons c cs => simp [List.filter_cons]

/-- C6 (amended): the parser returns exactly the trimmed forms of the
lines, of the comment-stripped input split on `\n` or `\r\n`, that are
non-empty before trimming, in order and with duplicates — where comment
stripping deletes each segment from a `#` through the following line
break (joining the text before the `#` to the next line) and keeps a `#`
segment that reaches the end of input without a line break. -/
theorem C6_parser_characterization :
    ∀ (data : String),
      browsersListParser data =
        ((splitLines (stripComments data.toList)).filter
            (fun line => line ≠ [])).map
          (fun line => String.mk (jsTrim line)) := by
  intro data
  simp only [browsersListParser]
  rw [browsersListParser_foldl_eq]
  simp

/-- C7: a content-change or save event processed while `editorSettings` is
still undefined (before the first configuration notification) makes the
handler throw a `TypeError` on the unguarded `editorSettings.run` read,
instead of treating validation as disabled; this contradicts the claim
and the spec's stated intent. -/
theorem C7_uninitialized_event_throws :
    onDidChangeContent none sampleDoc =
      .error (.typeError "Cannot read property run of undefined") ∧
    onDidSave none sampleDoc =
      .error (.typeError "Cannot read property run of undefined") :=
  ⟨rfl, rfl⟩

/-- C8: initialization yields the retryable engine-not-found response
(carrying the `doiuseNotFound` install hint) exactly when the engine
module cannot be resolved and non-empty initialization options were
supplied; with the module missing and no (or empty) options it returns
null, completing without error. -/
theorem C8_engine_not_found_iff :
    ∀ (resolveOutcome : Except InitError (Option String))
      (initializationOptions : Option (List String)),
      (onInitialize resolveOutcome initializationOptions =
          .retryError doiuseNotFound ↔
        engineMissing resolveOutcome = true ∧
          objectKeysNonEmpty initializationOptions = true) ∧
      (engineMissing resolveOutcome = true →
        objectKeysNonEmpty initializationOptions = false →
        onInitialize resolveOutcome initializationOptions = .nullResult) := by
  intro r opts
  cases r with
  | ok mp =>
    cases mp with
    | none =>
      by_cases h : objectKeysNonEmpty opts <;>
        simp [onInitialize, Except.bind, initThenStage, initCatchStage,
          engineMissing, h]
    | some p =>
      simp [onInitialize, Except.bind, initThenStage, engineMissing]
  | error err =>
    by_cases hc : err.code = some "ENOENT"
    · by_cases h : objectKeysNonEmpty opts <;>
        simp [onInitialize, Except.bind, initCatchStage, engineMissing, hc, h]
    · simp [onInitialize, Except.bind, initCatchStage, engineMissing, hc]

/-- C8 witness: the theorem applied at concrete inputs — a missing module
with non-empty initialization options yields the retryable error, and a
missing module with absent options initializes without error. -/
theorem C8_witness :
    onInitialize (.ok none) (some ["browsers"]) =
        .retryError doiuseNotFound ∧
    onInitialize (.ok none) none = .nullResult :=
  ⟨((C8_engine_not_found_iff (.ok none) (some ["browsers"])).1).mpr
      (by decide),
    (C8_engine_not_found_iff (.ok none) none).2 (by decide) (by decide)⟩

/-- C9: evaluated at a concrete three-document batch whose middle document
matches the ignore glob, the whole batch aborts — `validate` throws a
synchronous `TypeError` (the `.catch` property access on the plain array
returned by `validateDocument`'s ignore path), the third document's
pipeline never runs, and no aggregated error report is ever sent —
contradicting the claim that a problem in one document's pipeline never
prevents the sibling pipelines from running to completion and that
per-document failures are reported once, aggregated, after the batch
settles. -/
theorem C9_ignored_document_aborts_batch :
    validate ignoreMinEnv (some "/ws") ignoreSettings warmCache
        [docA, sampleDoc, docB] =
      (warmCache,
        .crashed
          [.published "file:///ws/a.css"
              [makeDiagnostic ignoreSettings problemLimited],
            .ignored []]
          (.typeError "validateDocument(...).catch is not a function")) :=
  rfl

/-- C10: every diagnostic in one published set carries the same severity,
namely the severity table's entry for the configured `messageLevel`
string, never varying with the individual findings. -/
theorem C10_uniform_published_severity :
    ∀ (env : Env) (wf : Option String) (s : EditorSettings)
      (st st2 : CacheState) (doc : Document) (uri : String)
      (diags : List Diagnostic),
      validateDocument env wf s st doc = (st2, .published uri diags) →
      ∀ d ∈ diags, d.severity = severityLevel s.messageLevel := by
  intro env wf s st st2 doc uri diags h d hd
  by_cases hig : isIgnored env wf s doc
  · simp [validateDocument, hig] at h
  · simp only [validateDocument, Bool.not_eq_true] at h
    rw [Bool.not_eq_true] at hig
    rw [hig] at h
    simp only [Bool.false_eq_true, if_false] at h
    cases hb : getBrowsersList env (effectiveFsPath env wf s doc) st with
    | error e =>
      rw [hb] at h
      simp at h
    | ok pr =>
      obtain ⟨st3, bl⟩ := pr
      rw [hb] at h
      dsimp only at h
      cases he : env.engine bl s.ignore doc.content with
      | error m =>
        rw [he] at h
        simp at h
      | ok problems =>
        rw [he] at h
        simp only [Prod.mk.injEq, DocOutcome.published.injEq] at h
        obtain ⟨h1, h2, h3⟩ := h
        subst h3
        obtain ⟨p, hp, rfl⟩ := List.mem_map.mp hd
        rfl

/-- C10 witness: the theorem applied to a concrete published batch holding
two findings with different support flags. -/
theorem C10_witness :
    (makeDiagnostic errorSettings problemMissing).severity =
      severityLevel errorSettings.messageLevel :=
  C10_uniform_published_severity twoFindingsEnv none errorSettings warmCache
    warmCache sampleDoc "file:///ws/dist/app.min.css"
    [makeDiagnostic errorSettings problemMissing,
      makeDiagnostic errorSettings problemClean] rfl
    (makeDiagnostic errorSettings problemMissing) (List.mem_cons_self _ _)
